import Mathlib

/-!
Verification of the trajectory analysis / CASA metrics core of the
offline patient manager repository.

The calculator definitions mirror
`SpermAnalysisService._calculate_casa_metrics` in `app/analysis_service.py`
(lines 259-336): each local variable of that method becomes a named
definition.  Real-valued quantities are modelled over `ℝ` (the source mixes
Python floats and `Decimal`; both are treated as exact reals, so the
`Decimal(str(.))` round-trips are identities).  The hidden global numpy
random generator consumed by the mock `alh` / `bcf` fields is modelled as an
explicit stream `rng : ℕ → ℝ` of uniform draws, with
`np.random.uniform(a, b)` translated to `a + (b - a) * rng k` for the k-th
draw of the call.

The trajectory ingestor of the specification has no counterpart in the
source tree, so it is modelled from the specification text (see `validate`
below).
-/

namespace SpermAnalysis

noncomputable section

/-- One trajectory sample: mirrors the per-frame dictionaries
`{"frame": frame, "x": x, "y": y, "timestamp": t}` stored in
`SpermTrack.trajectory` (analysis_service.py line 230); the calculator reads
only `x`, `y` and `timestamp` (line 266). -/
structure TrajectoryPoint where
  frame : ℕ
  x : ℝ
  y : ℝ
  timestamp : ℝ

instance : Inhabited TrajectoryPoint := ⟨⟨0, 0, 0, 0⟩⟩

/-- Output record of the calculator: mirrors the field list of the
`CASAMetrics(...)` constructor call (analysis_service.py lines 320-336). -/
structure CASAMetrics where
  sperm_track_id : ℕ
  vcl : ℝ
  vsl : ℝ
  vap : ℝ
  lin : ℝ
  str_value : ℝ
  wob : ℝ
  alh : ℝ
  bcf : ℝ
  total_distance : ℝ
  net_distance : ℝ
  path_smoothness : ℝ
  tracking_quality : ℝ
  pixel_to_micron_ratio : ℝ
  frame_rate : ℝ

/-- Segment distance between two consecutive samples: Euclidean pixel
distance scaled by the pixel-to-micron calibration ratio
(analysis_service.py line 277). -/
def segDist (ratio : ℝ) (p q : TrajectoryPoint) : ℝ :=
  Real.sqrt ((q.x - p.x) ^ 2 + (q.y - p.y) ^ 2) * ratio

/-- Accumulated path length over consecutive sample pairs: the
`total_distance` accumulator of the loop at lines 269-278. -/
def totalDistance (ratio : ℝ) : List TrajectoryPoint → ℝ
  | p :: q :: rest => segDist ratio p q + totalDistance ratio (q :: rest)
  | _ => 0

/-- Per-segment instantaneous velocities: a segment contributes an entry
only when its time difference is positive (lines 280-284). -/
def velocities (ratio : ℝ) : List TrajectoryPoint → List ℝ
  | p :: q :: rest =>
      (if q.timestamp - p.timestamp > 0
        then [segDist ratio p q / (q.timestamp - p.timestamp)] else [])
        ++ velocities ratio (q :: rest)
  | _ => []

/-- First sample of the point list, `points[0]` (line 287). -/
def firstPoint : List TrajectoryPoint → TrajectoryPoint
  | p :: _ => p
  | [] => default

/-- Last sample of the point list, `points[-1]` (line 288). -/
def lastPoint : List TrajectoryPoint → TrajectoryPoint
  | [p] => p
  | _ :: q :: rest => lastPoint (q :: rest)
  | [] => default

/-- Net displacement: straight-line distance between the first and last
sample, scaled by the calibration ratio (lines 286-291). -/
def netDistance (ratio : ℝ) (traj : List TrajectoryPoint) : ℝ :=
  segDist ratio (firstPoint traj) (lastPoint traj)

/-- Total duration `points[-1][2] - points[0][2]` (line 294). -/
def totalTime (traj : List TrajectoryPoint) : ℝ :=
  (lastPoint traj).timestamp - (firstPoint traj).timestamp

/-- Curvilinear velocity with the zero-duration guard (line 297). -/
def vcl (ratio : ℝ) (traj : List TrajectoryPoint) : ℝ :=
  if totalTime traj > 0 then totalDistance ratio traj / totalTime traj else 0

/-- Straight-line velocity with the zero-duration guard (line 298). -/
def vsl (ratio : ℝ) (traj : List TrajectoryPoint) : ℝ :=
  if totalTime traj > 0 then netDistance ratio traj / totalTime traj else 0

/-- Average path velocity: sum of the first `len // 2` velocities divided
by `max 1 (len // 2)`, or 0 when no velocities were collected
(lines 299-304). -/
def vap (ratio : ℝ) (traj : List TrajectoryPoint) : ℝ :=
  if (velocities ratio traj).isEmpty then 0
  else ((velocities ratio traj).take ((velocities ratio traj).length / 2)).sum
    / ((max 1 ((velocities ratio traj).length / 2) : ℕ) : ℝ)

/-- Linearity percentage before clamping (line 307). -/
def lin (ratio : ℝ) (traj : List TrajectoryPoint) : ℝ :=
  if vcl ratio traj > 0 then vsl ratio traj / vcl ratio traj * 100 else 0

/-- Straightness percentage before clamping (line 308). -/
def str_value (ratio : ℝ) (traj : List TrajectoryPoint) : ℝ :=
  if vap ratio traj > 0 then vsl ratio traj / vap ratio traj * 100 else 0

/-- Wobble percentage before clamping (line 309). -/
def wob (ratio : ℝ) (traj : List TrajectoryPoint) : ℝ :=
  if vcl ratio traj > 0 then vap ratio traj / vcl ratio traj * 100 else 0

/-- Mock amplitude `np.random.uniform(1.5, 4.5)` (line 312), reading the
first draw of the global generator stream. -/
def alhOf (rng : ℕ → ℝ) : ℝ := 1.5 + (4.5 - 1.5) * rng 0

/-- Mock beat frequency `np.random.uniform(8, 25)` (line 313), reading the
second draw of the global generator stream. -/
def bcfOf (rng : ℕ → ℝ) : ℝ := 8 + (25 - 8) * rng 1

/-- Path smoothness placeholder `clamp(0.8 - n/1000, 0.1, 1.0)`
(lines 316-317). -/
def pathSmoothness (traj : List TrajectoryPoint) : ℝ :=
  max 0.1 (min 1 (0.8 - (traj.length : ℝ) / 1000))

/-- Tracking quality placeholder, a two-level confidence signal
(line 318). -/
def trackingQuality (traj : List TrajectoryPoint) : ℝ :=
  if traj.length > 10 then 0.9 else 0.7

/-- The CASA metrics calculator `_calculate_casa_metrics`
(analysis_service.py lines 259-336): the sub-3-sample guard at lines
261-262 yields `none`, otherwise the fully populated record of lines
320-336 is returned.  `ratio` is the service's `pixel_to_micron_ratio`,
`fps` the frame rate passed by the caller, `rng` the state of the global
random generator at call time. -/
def calculateCasaMetrics (ratio fps : ℝ) (rng : ℕ → ℝ)
    (trajectory : List TrajectoryPoint) : Option CASAMetrics :=
  if trajectory.length < 3 then none
  else some {
    sperm_track_id := 0
    vcl := vcl ratio trajectory
    vsl := vsl ratio trajectory
    vap := vap ratio trajectory
    lin := min 100 (lin ratio trajectory)
    str_value := min 100 (str_value ratio trajectory)
    wob := min 100 (wob ratio trajectory)
    alh := alhOf rng
    bcf := bcfOf rng
    total_distance := totalDistance ratio trajectory
    net_distance := netDistance ratio trajectory
    path_smoothness := pathSmoothness trajectory
    tracking_quality := trackingQuality trajectory
    pixel_to_micron_ratio := ratio
    frame_rate := fps }

/-- Straight-line constant-speed test trajectory of the specification:
samples at (0,0), (10,0), (20,0), (30,0) with timestamps 0, 1, 2, 3. -/
def cTraj : List TrajectoryPoint :=
  [⟨0, 0, 0, 0⟩, ⟨1, 10, 0, 1⟩, ⟨2, 20, 0, 2⟩, ⟨3, 30, 0, 3⟩]

/-- Trajectory whose first two samples share a timestamp: only the last
segment contributes a velocity, so exactly one velocity is collected. -/
def oneVelTraj : List TrajectoryPoint :=
  [⟨0, 0, 0, 0⟩, ⟨1, 1, 0, 0⟩, ⟨2, 2, 0, 1⟩]

/-- Trajectory with all timestamps equal (zero total duration). -/
def zeroTimeTraj : List TrajectoryPoint :=
  [⟨0, 0, 0, 0⟩, ⟨1, 1, 0, 0⟩, ⟨2, 2, 0, 0⟩]

/-- Trajectory with a fast first segment and a long stationary tail: its
first-half velocity average exceeds its curvilinear velocity. -/
def fastSlowTraj : List TrajectoryPoint :=
  [⟨0, 0, 0, 0⟩, ⟨1, 10, 0, 1⟩, ⟨2, 10, 0, 100⟩]

/-- Zero out the two mock random fields, leaving every other field. -/
def eraseMock (m : CASAMetrics) : CASAMetrics := { m with alh := 0, bcf := 0 }

/-- Zero out the echoed frame rate field, leaving every other field. -/
def eraseFrameRate (m : CASAMetrics) : CASAMetrics := { m with frame_rate := 0 }

/-- Modelled from the spec: a raw coordinate as supplied by the external
detector, which may be a finite value, NaN, or an infinity; the source tree
contains no ingestor, only the specification describes it. -/
inductive RawCoord where
  | val (r : ℝ)
  | nan
  | posInf
  | negInf

/-- Modelled from the spec: finiteness test for a raw coordinate. -/
def RawCoord.isFinite : RawCoord → Bool
  | .val _ => true
  | _ => false

/-- Modelled from the spec: the finite value of a raw coordinate (junk 0
for non-finite inputs, which validation rejects beforehand). -/
def RawCoord.toReal : RawCoord → ℝ
  | .val r => r
  | _ => 0

/-- Modelled from the spec: one raw observation
`(frame_index, x, y, timestamp)` handed to the Trajectory Ingestor. -/
structure RawSample where
  frame_index : ℕ
  x : RawCoord
  y : RawCoord
  timestamp : ℝ

/-- Modelled from the spec: timestamps are monotonic non-decreasing across
the sequence. -/
def timestampsMonotone (samples : List RawSample) : Prop :=
  List.Chain' (fun a b => a.timestamp ≤ b.timestamp) samples

/-- Modelled from the spec: every coordinate of every sample is finite. -/
def allCoordsFinite (samples : List RawSample) : Bool :=
  samples.all (fun s => s.x.isFinite && s.y.isFinite)

/-- Modelled from the spec: conversion of an accepted raw sample into an
internal trajectory point. -/
def rawToPoint (s : RawSample) : TrajectoryPoint :=
  { frame := s.frame_index, x := s.x.toReal, y := s.y.toReal,
    timestamp := s.timestamp }

open Classical

/-- Modelled from the spec: the Trajectory Ingestor
`validate(raw_samples) -> Trajectory | InvalidTrajectory`, absent from the
source tree.  It rejects with a reason string when the sample count is 0,
the timestamps are not monotonic non-decreasing, or any coordinate is
non-finite; otherwise it returns the converted point list. -/
def validate (samples : List RawSample) :
    Except String (List TrajectoryPoint) :=
  if samples.length = 0 then Except.error "empty trajectory"
  else if ¬ timestampsMonotone samples then
    Except.error "timestamps not monotonic non-decreasing"
  else if allCoordsFinite samples = false then
    Except.error "non-finite coordinate"
  else Except.ok (samples.map rawToPoint)

end

theorem segDist_nonneg (ratio : ℝ) (h : 0 ≤ ratio) (p q : TrajectoryPoint) :
    0 ≤ segDist ratio p q :=
  mul_nonneg (Real.sqrt_nonneg _) h

theorem segDist_self (ratio : ℝ) (p : TrajectoryPoint) :
    segDist ratio p p = 0 := by
  simp [segDist]

theorem totalDistance_nonneg (ratio : ℝ) (h : 0 ≤ ratio) :
    ∀ l : List TrajectoryPoint, 0 ≤ totalDistance ratio l := by
  intro l
  induction l with
  | nil => simp [totalDistance]
  | cons p rest ih =>
    cases rest with
    | nil => simp [totalDistance]
    | cons q rest2 =>
      simp only [totalDistance]
      exact add_nonneg (segDist_nonneg ratio h p q) ih

theorem velocities_nonneg (ratio : ℝ) (h : 0 ≤ ratio) :
    ∀ l : List TrajectoryPoint, ∀ v ∈ velocities ratio l, 0 ≤ v := by
  intro l
  induction l with
  | nil => simp [velocities]
  | cons p rest ih =>
    cases rest with
    | nil => simp [velocities]
    | cons q rest2 =>
      intro v hv
      simp only [velocities, List.mem_append] at hv
      rcases hv with hv | hv
      · by_cases ht : q.timestamp - p.timestamp > 0
        · rw [if_pos ht] at hv
          simp only [List.mem_singleton] at hv
          subst hv
          exact div_nonneg (segDist_nonneg ratio h p q) (le_of_lt ht)
        · rw [if_neg ht] at hv
          simp at hv
      · exact ih v hv

theorem sqrt_sq_add_sq_triangle (x1 y1 x2 y2 x3 y3 : ℝ) :
    Real.sqrt ((x3 - x1) ^ 2 + (y3 - y1) ^ 2) ≤
      Real.sqrt ((x2 - x1) ^ 2 + (y2 - y1) ^ 2)
        + Real.sqrt ((x3 - x2) ^ 2 + (y3 - y2) ^ 2) := by
  have key : ∀ a b : ℝ, Real.sqrt (a ^ 2 + b ^ 2) = Complex.abs ⟨a, b⟩ := by
    intro a b
    rw [Complex.abs_apply, Complex.normSq_mk]
    congr 1
    ring
  have hadd : (⟨x2 - x1, y2 - y1⟩ + ⟨x3 - x2, y3 - y2⟩ : ℂ)
      = (⟨x3 - x1, y3 - y1⟩ : ℂ) := by
    refine Complex.ext ?_ ?_ <;> simp
  have h := Complex.abs.add_le (⟨x2 - x1, y2 - y1⟩ : ℂ) (⟨x3 - x2, y3 - y2⟩ : ℂ)
  rw [hadd] at h
  rw [key, key, key]
  exact h

theorem segDist_triangle (ratio : ℝ) (h : 0 ≤ ratio) (p q r : TrajectoryPoint) :
    segDist ratio p r ≤ segDist ratio p q + segDist ratio q r := by
  unfold segDist
  have h1 := sqrt_sq_add_sq_triangle p.x p.y q.x q.y r.x r.y
  have h2 := mul_le_mul_of_nonneg_right h1 h
  rw [add_mul] at h2
  exact h2

theorem firstPoint_cons (p : TrajectoryPoint) (l : List TrajectoryPoint) :
    firstPoint (p :: l) = p := rfl

theorem lastPoint_cons_cons (p q : TrajectoryPoint) (l : List TrajectoryPoint) :
    lastPoint (p :: q :: l) = lastPoint (q :: l) := rfl

theorem net_le_totalDistance (ratio : ℝ) (h : 0 ≤ ratio) :
    ∀ (p : TrajectoryPoint) (l : List TrajectoryPoint),
      segDist ratio p (lastPoint (p :: l)) ≤ totalDistance ratio (p :: l) := by
  intro p l
  induction l generalizing p with
  | nil => simp [lastPoint, totalDistance, segDist_self]
  | cons q rest ih =>
    have tri := segDist_triangle ratio h p q (lastPoint (q :: rest))
    have h2 := ih q
    rw [lastPoint_cons_cons]
    simp only [totalDistance]
    linarith

theorem calculateCasaMetrics_eq_some (ratio fps : ℝ) (rng : ℕ → ℝ)
    (traj : List TrajectoryPoint) (h : ¬ traj.length < 3) :
    calculateCasaMetrics ratio fps rng traj = some {
      sperm_track_id := 0
      vcl := vcl ratio traj
      vsl := vsl ratio traj
      vap := vap ratio traj
      lin := min 100 (lin ratio traj)
      str_value := min 100 (str_value ratio traj)
      wob := min 100 (wob ratio traj)
      alh := alhOf rng
      bcf := bcfOf rng
      total_distance := totalDistance ratio traj
      net_distance := netDistance ratio traj
      path_smoothness := pathSmoothness traj
      tracking_quality := trackingQuality traj
      pixel_to_micron_ratio := ratio
      frame_rate := fps } := by
  unfold calculateCasaMetrics
  rw [if_neg h]

/-- C1: for every trajectory and calibration the calculator returns the
no-metrics outcome `none` if and only if the trajectory has fewer than 3
samples, and it returns a (fully populated) record exactly when the
trajectory has 3 or more samples. -/
theorem casa_none_iff_short (ratio fps : ℝ) (rng : ℕ → ℝ)
    (traj : List TrajectoryPoint) :
    (calculateCasaMetrics ratio fps rng traj = none ↔ traj.length < 3) ∧
    ((calculateCasaMetrics ratio fps rng traj).isSome ↔ 3 ≤ traj.length) := by
  unfold calculateCasaMetrics
  by_cases h : traj.length < 3 <;> (simp [h]; try omega)

theorem vap_of_two_le (ratio : ℝ) (traj : List TrajectoryPoint)
    (h : 2 ≤ (velocities ratio traj).length) :
    vap ratio traj
      = ((velocities ratio traj).take ((velocities ratio traj).length / 2)).sum
        / (((velocities ratio traj).length / 2 : ℕ) : ℝ) := by
  unfold vap
  have hne : (velocities ratio traj).isEmpty = false := by
    cases hv : velocities ratio traj
    · rw [hv] at h; simp at h
    · simp
  have hmax : max 1 ((velocities ratio traj).length / 2)
      = (velocities ratio traj).length / 2 := by omega
  rw [hne, hmax]
  simp

theorem vap_of_le_one (ratio : ℝ) (traj : List TrajectoryPoint)
    (h : (velocities ratio traj).length ≤ 1) :
    vap ratio traj = 0 := by
  unfold vap
  cases hv : velocities ratio traj with
  | nil => simp
  | cons a l =>
    rw [hv] at h
    simp only [List.length_cons] at h
    have hl : l = [] := List.eq_nil_of_length_eq_zero (by omega)
    subst hl
    norm_num

theorem velocities_oneVelTraj : velocities 1 oneVelTraj = [1] := by
  simp only [oneVelTraj, velocities, segDist]
  norm_num [Real.sqrt_one]

/-- C2 counterexample: on the trajectory (0,0), (1,0), (2,0) with
timestamps 0, 0, 1 exactly one velocity sample (of value 1) is collected,
yet the returned VAP is 0 — so VAP can be 0 even though a velocity sample
was collected. -/
theorem casa_vap_zero_with_velocity :
    velocities 1 oneVelTraj = [1] ∧
    (calculateCasaMetrics 1 1 (fun _ => 0) oneVelTraj).map
        (fun m => m.vap) = some 0 := by
  refine ⟨velocities_oneVelTraj, ?_⟩
  rw [calculateCasaMetrics_eq_some 1 1 (fun _ => 0) oneVelTraj (by decide)]
  simp only [Option.map_some']
  rw [show vap 1 oneVelTraj = 0 from
    vap_of_le_one 1 oneVelTraj (by rw [velocities_oneVelTraj]; simp)]

/-- C2 (amended): for every trajectory with at least 3 samples, when at
least 2 velocity samples were collected VAP is the average of the first
half of the velocity list (`floor(count/2)` samples); when 0 or 1 velocity
samples were collected VAP is 0 — in particular VAP is 0 in the
one-velocity case even though a velocity sample exists. -/
theorem casa_vap_first_half (ratio fps : ℝ) (rng : ℕ → ℝ)
    (traj : List TrajectoryPoint) (h : 3 ≤ traj.length) :
    ∃ m, calculateCasaMetrics ratio fps rng traj = some m ∧
      (2 ≤ (velocities ratio traj).length →
        m.vap = ((velocities ratio traj).take
            ((velocities ratio traj).length / 2)).sum
          / (((velocities ratio traj).length / 2 : ℕ) : ℝ)) ∧
      ((velocities ratio traj).length ≤ 1 → m.vap = 0) := by
  refine ⟨_, calculateCasaMetrics_eq_some ratio fps rng traj (by omega),
    ?_, ?_⟩
  · intro h2
    exact vap_of_two_le ratio traj h2
  · intro h2
    exact vap_of_le_one ratio traj h2

theorem casa_vap_first_half_witness :
    3 ≤ cTraj.length ∧
    (∃ m, calculateCasaMetrics 1 1 (fun _ => 0) cTraj = some m ∧
      (2 ≤ (velocities 1 cTraj).length →
        m.vap = ((velocities 1 cTraj).take
            ((velocities 1 cTraj).length / 2)).sum
          / (((velocities 1 cTraj).length / 2 : ℕ) : ℝ)) ∧
      ((velocities 1 cTraj).length ≤ 1 → m.vap = 0)) :=
  ⟨by decide, casa_vap_first_half 1 1 (fun _ => 0) cTraj (by decide)⟩

/-- C5: a trajectory with at least 3 samples whose total duration is not
positive yields a record with VCL = 0 and VSL = 0 (the division is
guarded, never taken). -/
theorem casa_zero_duration (ratio fps : ℝ) (rng : ℕ → ℝ)
    (traj : List TrajectoryPoint) (h : 3 ≤ traj.length)
    (ht : totalTime traj ≤ 0) :
    ∃ m, calculateCasaMetrics ratio fps rng traj = some m ∧
      m.vcl = 0 ∧ m.vsl = 0 := by
  refine ⟨_, calculateCasaMetrics_eq_some ratio fps rng traj (by omega),
    ?_, ?_⟩
  · show vcl ratio traj = 0
    unfold vcl
    rw [if_neg (by linarith)]
  · show vsl ratio traj = 0
    unfold vsl
    rw [if_neg (by linarith)]

theorem casa_zero_duration_witness :
    3 ≤ zeroTimeTraj.length ∧ totalTime zeroTimeTraj ≤ 0 ∧
    (∃ m, calculateCasaMetrics 1 1 (fun _ => 0) zeroTimeTraj = some m ∧
      m.vcl = 0 ∧ m.vsl = 0) :=
  ⟨by decide,
   by norm_num [totalTime, zeroTimeTraj, lastPoint, firstPoint],
   casa_zero_duration 1 1 (fun _ => 0) zeroTimeTraj (by decide)
     (by norm_num [totalTime, zeroTimeTraj, lastPoint, firstPoint])⟩

theorem vcl_nonneg (ratio : ℝ) (h : 0 ≤ ratio) (traj : List TrajectoryPoint) :
    0 ≤ vcl ratio traj := by
  unfold vcl
  by_cases ht : totalTime traj > 0
  · rw [if_pos ht]
    exact div_nonneg (totalDistance_nonneg ratio h traj) (le_of_lt ht)
  · rw [if_neg ht]

theorem netDistance_nonneg (ratio : ℝ) (h : 0 ≤ ratio)
    (traj : List TrajectoryPoint) : 0 ≤ netDistance ratio traj :=
  segDist_nonneg ratio h _ _

theorem vsl_nonneg (ratio : ℝ) (h : 0 ≤ ratio) (traj : List TrajectoryPoint) :
    0 ≤ vsl ratio traj := by
  unfold vsl
  by_cases ht : totalTime traj > 0
  · rw [if_pos ht]
    exact div_nonneg (netDistance_nonneg ratio h traj) (le_of_lt ht)
  · rw [if_neg ht]

theorem vap_nonneg (ratio : ℝ) (h : 0 ≤ ratio) (traj : List TrajectoryPoint) :
    0 ≤ vap ratio traj := by
  unfold vap
  split
  · exact le_rfl
  · refine div_nonneg (List.sum_nonneg ?_) (Nat.cast_nonneg _)
    intro x hx
    exact velocities_nonneg ratio h traj x (List.take_subset _ _ hx)

theorem lin_nonneg (ratio : ℝ) (h : 0 ≤ ratio) (traj : List TrajectoryPoint) :
    0 ≤ lin ratio traj := by
  unfold lin
  by_cases hc : vcl ratio traj > 0
  · rw [if_pos hc]
    exact mul_nonneg
      (div_nonneg (vsl_nonneg ratio h traj) (le_of_lt hc)) (by norm_num)
  · rw [if_neg hc]

theorem str_value_nonneg (ratio : ℝ) (h : 0 ≤ ratio)
    (traj : List TrajectoryPoint) : 0 ≤ str_value ratio traj := by
  unfold str_value
  by_cases hc : vap ratio traj > 0
  · rw [if_pos hc]
    exact mul_nonneg
      (div_nonneg (vsl_nonneg ratio h traj) (le_of_lt hc)) (by norm_num)
  · rw [if_neg hc]

theorem wob_nonneg (ratio : ℝ) (h : 0 ≤ ratio) (traj : List TrajectoryPoint) :
    0 ≤ wob ratio traj := by
  unfold wob
  by_cases hc : vcl ratio traj > 0
  · rw [if_pos hc]
    exact mul_nonneg
      (div_nonneg (vap_nonneg ratio h traj) (le_of_lt hc)) (by norm_num)
  · rw [if_neg hc]

theorem clamp_bounds (x : ℝ) (hx : 0 ≤ x) :
    0 ≤ min 100 x ∧ min 100 x ≤ 100 :=
  ⟨le_min (by norm_num) hx, min_le_left _ _⟩

theorem clamp_ite (c : Prop) [Decidable c] (x : ℝ) :
    min 100 (if c then x else 0) = if c then min 100 x else 0 := by
  by_cases hc : c
  · rw [if_pos hc, if_pos hc]
  · rw [if_neg hc, if_neg hc]
    exact min_eq_right (by norm_num)

/-- C3: for every trajectory with at least 3 samples and positive
calibration ratio, LIN, STR and WOB each lie in [0, 100], each equals its
velocity ratio times 100 clamped to a maximum of 100, and each is 0 when
its denominator is 0. -/
theorem casa_ratios_clamped (ratio fps : ℝ) (rng : ℕ → ℝ)
    (traj : List TrajectoryPoint) (hr : 0 < ratio) (h : 3 ≤ traj.length) :
    ∃ m, calculateCasaMetrics ratio fps rng traj = some m ∧
      (0 ≤ m.lin ∧ m.lin ≤ 100) ∧
      (0 ≤ m.str_value ∧ m.str_value ≤ 100) ∧
      (0 ≤ m.wob ∧ m.wob ≤ 100) ∧
      m.lin = (if m.vcl > 0 then min 100 (m.vsl / m.vcl * 100) else 0) ∧
      m.str_value = (if m.vap > 0 then min 100 (m.vsl / m.vap * 100) else 0) ∧
      m.wob = (if m.vcl > 0 then min 100 (m.vap / m.vcl * 100) else 0) := by
  have hr' := le_of_lt hr
  refine ⟨_, calculateCasaMetrics_eq_some ratio fps rng traj (by omega),
    clamp_bounds _ (lin_nonneg ratio hr' traj),
    clamp_bounds _ (str_value_nonneg ratio hr' traj),
    clamp_bounds _ (wob_nonneg ratio hr' traj), ?_, ?_, ?_⟩
  · show min 100 (lin ratio traj)
      = if vcl ratio traj > 0
        then min 100 (vsl ratio traj / vcl ratio traj * 100) else 0
    unfold lin
    rw [clamp_ite]
  · show min 100 (str_value ratio traj)
      = if vap ratio traj > 0
        then min 100 (vsl ratio traj / vap ratio traj * 100) else 0
    unfold str_value
    rw [clamp_ite]
  · show min 100 (wob ratio traj)
      = if vcl ratio traj > 0
        then min 100 (vap ratio traj / vcl ratio traj * 100) else 0
    unfold wob
    rw [clamp_ite]

theorem casa_ratios_clamped_witness :
    0 < (1 : ℝ) ∧ 3 ≤ cTraj.length ∧
    (∃ m, calculateCasaMetrics 1 1 (fun _ => 0) cTraj = some m ∧
      (0 ≤ m.lin ∧ m.lin ≤ 100) ∧
      (0 ≤ m.str_value ∧ m.str_value ≤ 100) ∧
      (0 ≤ m.wob ∧ m.wob ≤ 100) ∧
      m.lin = (if m.vcl > 0 then min 100 (m.vsl / m.vcl * 100) else 0) ∧
      m.str_value = (if m.vap > 0 then min 100 (m.vsl / m.vap * 100) else 0) ∧
      m.wob = (if m.vcl > 0 then min 100 (m.vap / m.vcl * 100) else 0)) :=
  ⟨by norm_num, by decide,
   casa_ratios_clamped 1 1 (fun _ => 0) cTraj (by norm_num) (by decide)⟩

/-- C4: for every trajectory with at least 3 samples and positive
calibration ratio, VCL, VSL and VAP are nonnegative and the accumulated
path length is at least the straight-line first-to-last displacement. -/
theorem casa_nonneg_metrics (ratio fps : ℝ) (rng : ℕ → ℝ)
    (traj : List TrajectoryPoint) (hr : 0 < ratio) (h : 3 ≤ traj.length) :
    ∃ m, calculateCasaMetrics ratio fps rng traj = some m ∧
      0 ≤ m.vcl ∧ 0 ≤ m.vsl ∧ 0 ≤ m.vap ∧
      m.net_distance ≤ m.total_distance := by
  have hr' := le_of_lt hr
  refine ⟨_, calculateCasaMetrics_eq_some ratio fps rng traj (by omega),
    vcl_nonneg ratio hr' traj, vsl_nonneg ratio hr' traj,
    vap_nonneg ratio hr' traj, ?_⟩
  show netDistance ratio traj ≤ totalDistance ratio traj
  obtain ⟨p, l, rfl⟩ : ∃ p l, traj = p :: l := by
    cases traj with
    | nil => simp at h
    | cons p l => exact ⟨p, l, rfl⟩
  unfold netDistance
  rw [firstPoint_cons]
  exact net_le_totalDistance ratio hr' p l

theorem casa_nonneg_metrics_witness :
    0 < (1 : ℝ) ∧ 3 ≤ cTraj.length ∧
    (∃ m, calculateCasaMetrics 1 1 (fun _ => 0) cTraj = some m ∧
      0 ≤ m.vcl ∧ 0 ≤ m.vsl ∧ 0 ≤ m.vap ∧
      m.net_distance ≤ m.total_distance) :=
  ⟨by norm_num, by decide,
   casa_nonneg_metrics 1 1 (fun _ => 0) cTraj (by norm_num) (by decide)⟩

theorem sqrt_hundred : Real.sqrt 100 = 10 := by
  rw [show (100 : ℝ) = 10 ^ 2 by norm_num]
  exact Real.sqrt_sq (by norm_num)

theorem sqrt_ninehundred : Real.sqrt 900 = 30 := by
  rw [show (900 : ℝ) = 30 ^ 2 by norm_num]
  exact Real.sqrt_sq (by norm_num)

theorem velocities_cTraj : velocities 1 cTraj = [10, 10, 10] := by
  simp only [cTraj, velocities, segDist]
  norm_num [sqrt_hundred]

theorem totalDistance_cTraj : totalDistance 1 cTraj = 30 := by
  simp only [cTraj, totalDistance, segDist]
  norm_num [sqrt_hundred]

theorem netDistance_cTraj : netDistance 1 cTraj = 30 := by
  simp only [cTraj, netDistance, firstPoint, lastPoint, segDist]
  norm_num [sqrt_ninehundred]

theorem totalTime_cTraj : totalTime cTraj = 3 := by
  simp only [cTraj, totalTime, firstPoint, lastPoint]
  norm_num

theorem vcl_cTraj : vcl 1 cTraj = 10 := by
  unfold vcl
  rw [totalTime_cTraj, totalDistance_cTraj]
  norm_num

theorem vsl_cTraj : vsl 1 cTraj = 10 := by
  unfold vsl
  rw [totalTime_cTraj, netDistance_cTraj]
  norm_num

theorem vap_cTraj : vap 1 cTraj = 10 := by
  unfold vap
  rw [velocities_cTraj]
  norm_num

/-- C6: the straight-line constant-speed trajectory (0,0), (10,0), (20,0),
(30,0) at timestamps 0, 1, 2, 3 with ratio 1 yields VCL = VSL = 10 and
LIN = STR = WOB = 100, exactly. -/
theorem casa_straight_line :
    (calculateCasaMetrics 1 1 (fun _ => 0) cTraj).map
        (fun m => (m.vcl, m.vsl, m.lin, m.str_value, m.wob))
      = some (10, 10, 100, 100, 100) := by
  rw [calculateCasaMetrics_eq_some 1 1 (fun _ => 0) cTraj (by decide)]
  simp only [Option.map_some', lin, str_value, wob, vcl_cTraj, vsl_cTraj,
    vap_cTraj]
  norm_num

/-- C7 counterexample: two invocations on the same trajectory and
calibration but with different states of the hidden global random
generator return different records (the mock `alh` field differs), so the
calculator is not deterministic in every field. -/
theorem casa_depends_on_rng_state :
    calculateCasaMetrics 1 1 (fun _ => 0) cTraj
      ≠ calculateCasaMetrics 1 1 (fun _ => 1 / 2) cTraj := by
  intro hEq
  rw [calculateCasaMetrics_eq_some 1 1 (fun _ => 0) cTraj (by decide),
    calculateCasaMetrics_eq_some 1 1 (fun _ => 1 / 2) cTraj (by decide)]
    at hEq
  have h2 := congrArg (fun o => Option.map (fun m => m.alh) o) hEq
  simp only [Option.map_some', Option.some.injEq, alhOf] at h2
  norm_num at h2

/-- C7 (amended): the calculator is deterministic in every field except
the mock `alh` and `bcf` fields, which read the hidden global random
generator: for any two generator states, the outputs agree after zeroing
those two fields. -/
theorem casa_deterministic_except_mock (ratio fps : ℝ) (rng1 rng2 : ℕ → ℝ)
    (traj : List TrajectoryPoint) :
    (calculateCasaMetrics ratio fps rng1 traj).map eraseMock
      = (calculateCasaMetrics ratio fps rng2 traj).map eraseMock := by
  unfold calculateCasaMetrics
  by_cases h : traj.length < 3
  · rw [if_pos h, if_pos h]
  · rw [if_neg h, if_neg h]
    simp only [Option.map_some']
    unfold eraseMock
    rfl

/-- C9: the frame rate argument influences no computed metric — for any
two frame rates (positive, per the claim) the returned records agree on
every field except the echoed `frame_rate` field. -/
theorem casa_fps_only_echoed (ratio fps1 fps2 : ℝ) (rng : ℕ → ℝ)
    (traj : List TrajectoryPoint) (_h1 : 0 < fps1) (_h2 : 0 < fps2) :
    (calculateCasaMetrics ratio fps1 rng traj).map eraseFrameRate
      = (calculateCasaMetrics ratio fps2 rng traj).map eraseFrameRate := by
  unfold calculateCasaMetrics
  by_cases h : traj.length < 3
  · rw [if_pos h, if_pos h]
  · rw [if_neg h, if_neg h]
    simp only [Option.map_some']
    unfold eraseFrameRate
    rfl

theorem casa_fps_only_echoed_witness :
    0 < (1 : ℝ) ∧ 0 < (2 : ℝ) ∧
    (calculateCasaMetrics 1 1 (fun _ => 0) cTraj).map eraseFrameRate
      = (calculateCasaMetrics 1 2 (fun _ => 0) cTraj).map eraseFrameRate :=
  ⟨by norm_num, by norm_num,
   casa_fps_only_echoed 1 1 2 (fun _ => 0) cTraj (by norm_num) (by norm_num)⟩

theorem velocities_fastSlowTraj : velocities 1 fastSlowTraj = [10, 0] := by
  simp only [fastSlowTraj, velocities, segDist]
  norm_num [sqrt_hundred]

theorem totalDistance_fastSlowTraj : totalDistance 1 fastSlowTraj = 10 := by
  simp only [fastSlowTraj, totalDistance, segDist]
  norm_num [sqrt_hundred]

theorem totalTime_fastSlowTraj : totalTime fastSlowTraj = 100 := by
  simp only [fastSlowTraj, totalTime, firstPoint, lastPoint]
  norm_num

theorem vcl_fastSlowTraj : vcl 1 fastSlowTraj = 1 / 10 := by
  unfold vcl
  rw [totalTime_fastSlowTraj, totalDistance_fastSlowTraj]
  norm_num

theorem vap_fastSlowTraj : vap 1 fastSlowTraj = 10 := by
  unfold vap
  rw [velocities_fastSlowTraj]
  norm_num

/-- C10: VAP is not bounded by VCL — on the trajectory with a fast first
segment and a long stationary tail the returned record has VAP strictly
greater than VCL. -/
theorem casa_vap_can_exceed_vcl :
    ∃ (traj : List TrajectoryPoint) (ratio fps : ℝ) (rng : ℕ → ℝ)
      (m : CASAMetrics),
      0 < ratio ∧ 3 ≤ traj.length ∧
      calculateCasaMetrics ratio fps rng traj = some m ∧ m.vcl < m.vap := by
  refine ⟨fastSlowTraj, 1, 1, fun _ => 0, _, by norm_num, by decide,
    calculateCasaMetrics_eq_some 1 1 (fun _ => 0) fastSlowTraj (by decide),
    ?_⟩
  show vcl 1 fastSlowTraj < vap 1 fastSlowTraj
  rw [vcl_fastSlowTraj, vap_fastSlowTraj]
  norm_num

/-- C8: the Trajectory Ingestor (modelled from the specification, having
no source counterpart) rejects a raw sample sequence with an
`InvalidTrajectory` reason exactly when the sample count is 0, the
timestamps are not monotonic non-decreasing, or some coordinate is
non-finite; otherwise it returns the converted trajectory. -/
theorem validate_spec (samples : List RawSample) :
    ((∃ reason, validate samples = Except.error reason) ↔
      (samples.length = 0 ∨ ¬ timestampsMonotone samples ∨
        allCoordsFinite samples = false)) ∧
    (validate samples = Except.ok (samples.map rawToPoint) ↔
      ¬ (samples.length = 0 ∨ ¬ timestampsMonotone samples ∨
        allCoordsFinite samples = false)) := by
  unfold validate
  split_ifs with h1 h2 h3 <;> simp_all

end SpermAnalysis
